import Mathlib

/-
Verification of the sensor-analytics core of the Maintairenderpredict
repository: a shallow embedding, over exact rationals, of the threshold
evaluator and type normalizer (src/iot.py), the feature builder, anomaly
detection shell, failure predictor and health aggregator
(src/predictive_analytics.py), and the threshold-configuration route
(src/analytics.py), together with theorems settling the specification
claims about them.

Numeric modelling conventions: Python floats are modelled as exact
rationals, timestamps as integers.  The only irrational operation in the
source is the square root inside a standard deviation; it is modelled by
an exact partial rational square root (ratSqrt), and every theorem whose
conclusion depends on the numeric value of a standard deviation carries
the hypothesis that the relevant square root is exactly rational, which
all concrete instances here satisfy.  The learned isolation-forest model
and fitted scaler are external ML state and appear only as abstract
function parameters.
-/

namespace MRP

/-- Python substring containment, on character lists: listContainsSub pat l
is true when pat occurs contiguously inside l. -/
def listContainsSub (pat : List Char) : List Char → Bool
  | [] => pat.isEmpty
  | c :: rest => pat.isPrefixOf (c :: rest) || listContainsSub pat rest

/-- Python expression pat in s on strings. -/
def containsSub (s pat : String) : Bool := listContainsSub pat.data s.data

/-- Python str.lower, modelled characterwise (the labels involved are ASCII). -/
def lowerStr (s : String) : String := ⟨s.data.map Char.toLower⟩

/-- Drop leading and trailing whitespace from a character list. -/
def trimCharsL (l : List Char) : List Char :=
  ((l.dropWhile Char.isWhitespace).reverse.dropWhile Char.isWhitespace).reverse

/-- Python str.strip. -/
def stripStr (s : String) : String := ⟨trimCharsL s.data⟩

/-- Python dict lookup d.get(k), for dictionaries modelled as association
lists (first binding wins). -/
def alookup {κ α : Type} [BEq κ] (k : κ) (l : List (κ × α)) : Option α :=
  (l.find? (fun p => p.1 == k)).map (fun p => p.2)

/- ===== src/iot.py : Type Normalizer ===== -/

/-- Keyword set for temperature in normalize_sensor_type (iot.py). -/
def temperature_terms : List String := ["temp", "temperature", "thermal"]

/-- Keyword set for humidity in normalize_sensor_type (iot.py). -/
def humidity_terms : List String := ["humidity", "moisture", "rh"]

/-- Keyword set for tension in normalize_sensor_type (iot.py). -/
def tension_terms : List String := ["tension", "pressure", "force", "stress"]

/-- Keyword set for vibration in normalize_sensor_type (iot.py). -/
def vibration_terms : List String := ["vibration", "vibr", "oscillation", "shake"]

/-- normalize_sensor_type (src/iot.py, lines 344-365): lowercase and strip
the label, then return the first canonical type whose keyword set has a
substring match, else the processed label unchanged. -/
def normalize_sensor_type (sensor_type : String) : String :=
  let s := stripStr (lowerStr sensor_type)
  if temperature_terms.any (fun t => containsSub s t) then "temperature"
  else if humidity_terms.any (fun t => containsSub s t) then "humidity"
  else if tension_terms.any (fun t => containsSub s t) then "tension"
  else if vibration_terms.any (fun t => containsSub s t) then "vibration"
  else s

/-- The four canonical sensor types, in the fixed priority order. -/
def canonical_types : List String := ["temperature", "humidity", "tension", "vibration"]

/-- Stated from the words of the spec (4.1): the keyword table, canonical
types in priority order each paired with its keyword set. -/
def keyword_table : List (String × List String) :=
  [("temperature", temperature_terms), ("humidity", humidity_terms),
   ("tension", tension_terms), ("vibration", vibration_terms)]

/-- Stated from the words of the spec (4.1): return the first canonical
type, in priority order, whose keyword set matches the lowercased and
trimmed label by substring; otherwise the processed label unchanged. -/
def spec_normalize (label : String) : String :=
  let s := stripStr (lowerStr label)
  match keyword_table.find? (fun p => p.2.any (fun t => containsSub s t)) with
  | some p => p.1
  | none => s

/- ===== src/iot.py : Threshold Evaluator ===== -/

/-- A {min, max} bound pair. -/
structure Bounds where
  min : ℚ
  max : ℚ
deriving DecidableEq

/-- The Sensor row fields read by the threshold checks (src/models/machine.py);
the human-readable name and unit take part only in alert message text, which
is not modelled. -/
structure SensorRec where
  id : ℤ
  machine_id : ℤ
  type : String
  min_value : ℚ
  max_value : ℚ

/-- The Alert row fields produced by the threshold checks; the message text
and timestamp are not modelled. -/
structure AlertRec where
  machine_id : ℤ
  sensor_id : ℤ
  type : String
  severity : String
  status : String
deriving DecidableEq

/-- critical_thresholds table (src/iot.py, lines 432-437). -/
def critical_thresholds : List (String × Bounds) :=
  [("temperature", ⟨-40, 120⟩), ("humidity", ⟨5, 95⟩),
   ("tension", ⟨-100, 800⟩), ("vibration", ⟨-10, 80⟩)]

/-- check_critical_thresholds (src/iot.py, lines 430-452): one critical
alert iff the sensor type is in the fixed table and the value breaches it. -/
def check_critical_thresholds (sensor : SensorRec) (value : ℚ) : Option AlertRec :=
  match alookup sensor.type critical_thresholds with
  | some thresholds =>
      if value < thresholds.min ∨ thresholds.max < value then
        some { machine_id := sensor.machine_id, sensor_id := sensor.id,
               type := "critical_threshold", severity := "critical", status := "active" }
      else none
  | none => none

/-- check_sensor_thresholds (src/iot.py, lines 387-428), as the list of
alerts the call adds to the database session, in creation order: a medium
below-minimum alert, an above-maximum alert whose severity is high iff
value exceeds max times 1.2, and the critical-bounds alert if any. -/
def check_sensor_thresholds (sensor : SensorRec) (value : ℚ) : List AlertRec :=
  let minAlerts : List AlertRec :=
    if value < sensor.min_value then
      [{ machine_id := sensor.machine_id, sensor_id := sensor.id,
         type := "threshold_violation", severity := "medium", status := "active" }]
    else []
  let maxAlerts : List AlertRec :=
    if sensor.max_value < value then
      [{ machine_id := sensor.machine_id, sensor_id := sensor.id,
         type := "threshold_violation",
         severity := if sensor.max_value * 1.2 < value then "high" else "medium",
         status := "active" }]
    else []
  let critAlerts : List AlertRec := (check_critical_thresholds sensor value).toList
  minAlerts ++ maxAlerts ++ critAlerts

/-- Stated from the words of claim C1: configured-bounds severity is high
when the overshoot exceeds 20 percent of the exceeded bound magnitude
(value above max times 1.2, or the equivalent below min), else medium. -/
def claim_configured_severity (bmin bmax value : ℚ) : String :=
  if bmax * 1.2 < value ∨ value < bmin - |bmin| * 0.2 then "high" else "medium"

/- ===== src/predictive_analytics.py : data frames and preprocessing ===== -/

/-- A pivoted pandas DataFrame: a row count and named numeric columns, each
column a series of that length.  The timestamp index column is not modelled
(it only decorates result records with an ISO string). -/
structure Frame where
  nrows : ℕ
  cols : List (String × List ℚ)

/-- One sensor reading record as consumed by preprocess_sensor_data. -/
structure Reading where
  sensor_type : String
  value : ℚ
  timestamp : ℤ

/-- First-occurrence deduplication. -/
def dedupKeep {α : Type} [DecidableEq α] : List α → List α
  | [] => []
  | a :: rest => a :: dedupKeep (rest.filter (fun x => x ≠ a))
termination_by l => l.length
decreasing_by
  simp only [List.length_cons]
  exact Nat.lt_succ_of_le (List.length_filter_le _ _)

/-- Insert into a sorted list of integers. -/
def insertSorted (t : ℤ) : List ℤ → List ℤ
  | [] => [t]
  | a :: rest => if t ≤ a then t :: a :: rest else a :: insertSorted t rest

/-- Ascending sort of integers (insertion sort). -/
def sortInts (l : List ℤ) : List ℤ := l.foldr insertSorted []

/-- Arithmetic mean of a list (pandas mean); division by zero yields 0 in ℚ
but every use is guarded to nonempty lists. -/
def listMean (xs : List ℚ) : ℚ := xs.sum / (xs.length : ℚ)

/-- The mean-aggregated pivot cell for one sensor type and one timestamp,
none when no reading matches (a NaN cell in the pivot). -/
def cellMean (readings : List Reading) (ty : String) (t : ℤ) : Option ℚ :=
  let vs := (readings.filter (fun r => r.sensor_type == ty && r.timestamp == t)).map
    (fun r => r.value)
  if vs.isEmpty then none else some (listMean vs)

/-- pandas fillna(method=ffill): carry the last seen value forward. -/
def ffillAux (last : Option ℚ) : List (Option ℚ) → List (Option ℚ)
  | [] => []
  | none :: rest => last :: ffillAux last rest
  | some v :: rest => some v :: ffillAux (some v) rest

/-- pandas fillna(method=bfill): carry the next seen value backward. -/
def bfill (l : List (Option ℚ)) : List (Option ℚ) := (ffillAux none l.reverse).reverse

/-- preprocess_sensor_data (src/predictive_analytics.py, lines 41-82):
sort by timestamp, pivot to one row per distinct timestamp and one column
per sensor type averaging duplicates, then forward- then backward-fill.
A column is all-NaN only if its type never occurs, which cannot happen for
pivot columns, so the final getD 0 is unreachable.  pandas orders pivot
columns alphabetically; first-appearance order is used here, and no claim
depends on column order. -/
def preprocess_sensor_data (readings : List Reading) : Frame :=
  if readings.isEmpty then ⟨0, []⟩
  else
    let ts := sortInts (dedupKeep (readings.map (fun r => r.timestamp)))
    let types := dedupKeep (readings.map (fun r => r.sensor_type))
    ⟨ts.length,
     types.map (fun ty =>
       (ty, (bfill (ffillAux none (ts.map (fun t => cellMean readings ty t)))).map
          (fun c => c.getD 0)))⟩

/- ===== src/predictive_analytics.py : Feature Builder ===== -/

/-- self.feature_columns: the four canonical channels, in order. -/
def feature_columnsL : List String := ["temperature", "humidity", "tension", "vibration"]

/-- Largest natural k with k * k at most n, by bounded search (an exact
integer square root used only under a perfect-square guard). -/
def natSqrtL (n : ℕ) : ℕ :=
  (List.range (n + 1)).foldl (fun acc k => if k * k ≤ n then k else acc) 0

/-- Exact partial rational square root: the nonnegative rational r with
r * r = v when one exists, else 0.  The source computes a floating-point
square root; theorems that use the numeric value of a standard deviation
carry the hypothesis ratSqrt v * ratSqrt v = v, under which this model is
exact. -/
def ratSqrt (v : ℚ) : ℚ :=
  let sn := natSqrtL v.num.toNat
  let sd := natSqrtL v.den
  if 0 ≤ v ∧ sn * sn = v.num.toNat ∧ sd * sd = v.den then (sn : ℚ) / (sd : ℚ) else 0

/-- Sample variance with ddof 1, the quantity under the square root of
pandas Series.std(); division by zero makes the n = 1 case 0, but that case
is separately mapped to NaN by sampleStd. -/
def sampleVar (xs : List ℚ) : ℚ :=
  (xs.map (fun x => (x - listMean xs) ^ 2)).sum / ((xs.length : ℚ) - 1)

/-- pandas Series.std() (ddof 1): NaN (none) with fewer than 2 samples,
else the square root of the sample variance. -/
def sampleStd (xs : List ℚ) : Option ℚ :=
  if xs.length < 2 then none else some (ratSqrt (sampleVar xs))

/-- Stated from the words of the spec (4.3): population variance over the
whole channel, the square of the population standard deviation. -/
def popVar (xs : List ℚ) : ℚ :=
  (xs.map (fun x => (x - listMean xs) ^ 2)).sum / (xs.length : ℚ)

/-- Stated from the words of claim C4: the z-score column equals
(value - channel mean) / channel std with population statistics over the
whole input, rendered multiplicatively inside the rationals: the square of
each z-score times the population variance equals the squared deviation. -/
def isPopulationZscore (xs zs : List ℚ) : Prop :=
  zs.length = xs.length ∧
  ∀ i, i < xs.length →
    (zs.getD i 0) ^ 2 * popVar xs = (xs.getD i 0 - listMean xs) ^ 2

/-- The trailing window of up to 10 samples ending at row i (pandas
rolling(window=10, min_periods=1)). -/
def rollingWindow (xs : List ℚ) (i : ℕ) : List ℚ :=
  (xs.take (i + 1)).drop (i + 1 - 10)

/-- The rolling-mean feature column (never NaN since min_periods is 1). -/
def rolling_mean_col (xs : List ℚ) : List ℚ :=
  (List.range xs.length).map (fun i => listMean (rollingWindow xs i))

/-- The rolling-std feature column before NaN filling: none exactly where
the window holds fewer than 2 samples. -/
def rolling_std_raw (xs : List ℚ) : List (Option ℚ) :=
  (List.range xs.length).map (fun i => sampleStd (rollingWindow xs i))

/-- pandas Series.diff(): first row NaN, then successive differences. -/
def diff_raw (xs : List ℚ) : List (Option ℚ) :=
  match xs with
  | [] => []
  | _ :: tl => none :: (tl.zip xs).map (fun p => some (p.1 - p.2))

/-- The final fillna(0) applied to a column with NaN cells. -/
def fill0 (l : List (Option ℚ)) : List ℚ := l.map (fun c => c.getD 0)

/-- The z-score feature column (lines 110-116): against the whole-column
mean and ddof-1 std; the whole column is the scalar 0 unless std exceeds 0
(NaN compares false). -/
def zscore_col (xs : List ℚ) : List ℚ :=
  match sampleStd xs with
  | some sv =>
      if 0 < sv then xs.map (fun x => (x - listMean xs) / sv)
      else xs.map (fun _ => 0)
  | none => xs.map (fun _ => 0)

/-- The four derived columns appended for one canonical channel, empty when
the channel is absent from the frame. -/
def featureChunk (f : Frame) (col : String) : List (String × List ℚ) :=
  match alookup col f.cols with
  | some xs =>
      [(col ++ "_rolling_mean", rolling_mean_col xs),
       (col ++ "_rolling_std", fill0 (rolling_std_raw xs)),
       (col ++ "_rate_of_change", fill0 (diff_raw xs)),
       (col ++ "_zscore", zscore_col xs)]
  | none => []

/-- create_features (src/predictive_analytics.py, lines 84-125): an empty
frame is returned unchanged; otherwise the original columns plus, per
canonical channel present, rolling mean, rolling std, rate of change and
z-score, with NaN cells filled with 0. -/
def create_features (f : Frame) : Frame :=
  if f.nrows = 0 then f
  else ⟨f.nrows, f.cols ++ (feature_columnsL.map (featureChunk f)).flatten⟩

/- ===== src/predictive_analytics.py : anomaly detection shell ===== -/

/-- The fitted StandardScaler transform, external learned state abstracted
as a function on the feature matrix. -/
def ScalerFn : Type := List (List ℚ) → List (List ℚ)

/-- The fitted IsolationForest, external learned state abstracted as a
function from the scaled feature matrix to one (prediction, decision
score) pair per row, prediction -1 flagging an anomaly. -/
def ModelFn : Type := List (List ℚ) → List (ℤ × ℚ)

/-- The persisted-model fields of a PredictiveAnalytics engine as loaded
at construction: anomaly_model and scaler, each possibly absent. -/
structure ModelState where
  anomaly_model : Option ModelFn
  scaler : Option ScalerFn

/-- The feature-column selection (lines 202-205): every column whose name
has some canonical channel name as a substring. -/
def selectFeatureCols (f : Frame) : List String :=
  (f.cols.map (fun p => p.1)).filter
    (fun c => feature_columnsL.any (fun sensor => containsSub c sensor))

/-- Row i of a frame as a name-to-value association (pandas iloc). -/
def Frame.row (f : Frame) (i : ℕ) : List (String × ℚ) :=
  f.cols.filterMap (fun p => (p.2[i]?).map (fun v => (p.1, v)))

/-- The last row of a frame (pandas iloc[-1]). -/
def Frame.lastRow (f : Frame) : List (String × ℚ) :=
  f.cols.filterMap (fun p => p.2.getLast?.map (fun v => (p.1, v)))

/-- The matrix of the selected feature columns, row major (the values
array handed to the scaler and model). -/
def featureMatrix (f : Frame) (cols : List String) : List (List ℚ) :=
  (List.range f.nrows).map (fun i =>
    cols.filterMap (fun c => (alookup c f.cols).bind (fun xs => xs[i]?)))

/-- pandas DataFrame.tail(k): the last min(k, nrows) rows. -/
def Frame.tailN (f : Frame) (k : ℕ) : Frame :=
  ⟨min f.nrows k, f.cols.map (fun p => (p.1, p.2.drop (p.2.length - k)))⟩

/-- _calculate_severity (lines 235-252). -/
def calculate_severity (anomaly_score : ℚ) : String :=
  if anomaly_score < -0.5 then "critical"
  else if anomaly_score < -0.3 then "high"
  else if anomaly_score < -0.1 then "medium"
  else "low"

/-- The inner loop of _identify_affected_sensors over the canonical
channels: a channel is appended (once) when some selected feature column
whose name contains the channel name is present in the row with absolute
value above 2; the source appends on the first such column and the
membership guard skips the rest, which this any-guard reproduces. -/
def affectedAux (data_row : List (String × ℚ)) (feature_cols : List String) :
    List String → List String → List String
  | acc, [] => acc
  | acc, sensor :: rest =>
      let hit := (feature_cols.filter (fun c => containsSub c sensor)).any
        (fun feature =>
          match alookup feature data_row with
          | some value => decide (2 < |value|)
          | none => false)
      affectedAux data_row feature_cols
        (if hit && !(acc.contains sensor) then acc ++ [sensor] else acc) rest

/-- _identify_affected_sensors (src/predictive_analytics.py, lines
254-277). -/
def identify_affected_sensors (data_row : List (String × ℚ))
    (feature_cols : List String) : List String :=
  affectedAux data_row feature_cols [] feature_columnsL

/-- Stated from the words of claim C3: the channels whose z-score feature
column is selected and has absolute value above 2 in the row. -/
def claim_affected_channels (data_row : List (String × ℚ))
    (feature_cols : List String) : List String :=
  feature_columnsL.filter (fun sensor =>
    feature_cols.any (fun c =>
      c == sensor ++ "_zscore" &&
      match alookup c data_row with
      | some value => decide (2 < |value|)
      | none => false))

/-- One anomaly record (lines 220-226); the timestamp decoration is not
modelled. -/
structure Anomaly where
  index : ℕ
  anomaly_score : ℚ
  severity : String
  affected_sensors : List String
deriving DecidableEq

/-- detect_anomalies (src/predictive_analytics.py, lines 180-233): empty
when the model or scaler is absent, the input is empty, or no feature
column matches; otherwise one record per row the model flags with -1. -/
def detect_anomalies (st : ModelState) (sensor_data : Frame) : List Anomaly :=
  match st.anomaly_model, st.scaler with
  | some model, some scaler =>
      if sensor_data.nrows = 0 then []
      else
        let feature_data := create_features sensor_data
        let feature_cols := selectFeatureCols feature_data
        if feature_cols.isEmpty then []
        else
          let X := featureMatrix feature_data feature_cols
          (model (scaler X)).enum.filterMap (fun p =>
            if p.2.1 = -1 then
              some { index := p.1, anomaly_score := p.2.2,
                     severity := calculate_severity p.2.2,
                     affected_sensors :=
                       identify_affected_sensors (feature_data.row p.1) feature_cols }
            else none)
  | _, _ => []

/- ===== src/predictive_analytics.py : threshold check and rule state ===== -/

/-- One configured-bounds violation record (lines 318-325); the timestamp
decoration is not modelled. -/
structure Violation where
  sensor_type : String
  value : ℚ
  threshold_min : ℚ
  threshold_max : ℚ
  severity : String
deriving DecidableEq

/-- A per-machine rule set: canonical sensor type to bounds. -/
def RuleSet : Type := List (String × Bounds)

/-- The process map machine id to rule set held in self.threshold_rules. -/
def ThresholdRules : Type := List (ℤ × RuleSet)

/-- default_thresholds (lines 303-308). -/
def default_thresholds : RuleSet :=
  [("temperature", ⟨-10, 80⟩), ("humidity", ⟨0, 100⟩),
   ("tension", ⟨0, 1000⟩), ("vibration", ⟨0, 50⟩)]

/-- check_thresholds (src/predictive_analytics.py, lines 279-332): on a
nonempty frame, evaluate the latest row against the rule set configured
for the machine, or the built-in defaults when none is configured;
severity is high iff value is below min times 0.5 or above max times 1.5. -/
def check_thresholds (threshold_rules : ThresholdRules) (sensor_data : Frame)
    (machine_id : ℤ) : List Violation :=
  if sensor_data.nrows = 0 then []
  else
    let latest := sensor_data.lastRow
    let thresholds := (alookup machine_id threshold_rules).getD default_thresholds
    thresholds.filterMap (fun p =>
      match alookup p.1 latest with
      | some value =>
          if value < p.2.min ∨ p.2.max < value then
            some { sensor_type := p.1, value := value,
                   threshold_min := p.2.min, threshold_max := p.2.max,
                   severity :=
                     if value < p.2.min * 0.5 ∨ p.2.max * 1.5 < value then "high"
                     else "medium" }
          else none
      | none => none)

/-- The engine state of a PredictiveAnalytics instance that the claims
depend on: its per-instance threshold_rules dictionary (the model fields
are passed separately as ModelState). -/
structure PA where
  threshold_rules : ThresholdRules

/-- PredictiveAnalytics.__init__ (line 33): threshold_rules starts empty
on every newly constructed instance. -/
def PA.init : PA := ⟨[]⟩

/-- set_threshold_rules (lines 422-431): dictionary assignment of the full
rule set for one machine on this instance. -/
def set_threshold_rules (pa : PA) (machine_id : ℤ) (thresholds : RuleSet) : PA :=
  ⟨(machine_id, thresholds) :: pa.threshold_rules.filter (fun p => p.1 ≠ machine_id)⟩

/- ===== src/predictive_analytics.py : Failure Predictor ===== -/

/-- The failure-prediction result record (lines 406-411). -/
structure FailurePrediction where
  failure_probability : ℚ
  confidence : ℚ
  time_to_failure_hours : Option ℕ
  contributing_factors : List String
deriving DecidableEq

/-- The slope of the degree-1 least-squares fit of ys against x = 0, 1, ...
(np.polyfit(x, y, 1)[0]), in closed form. -/
def lstsqSlope (ys : List ℚ) : ℚ :=
  let k : ℚ := (ys.length : ℚ)
  let xs : List ℚ := (List.range ys.length).map (fun i => (i : ℚ))
  let sx := xs.sum
  let sy := ys.sum
  let sxx := (xs.map (fun x => x * x)).sum
  let sxy := ((xs.zip ys).map (fun p => p.1 * p.2)).sum
  (k * sxy - sx * sy) / (k * sxx - sx * sx)

/-- predict_failure_probability (src/predictive_analytics.py, lines
334-420): below 10 rows everything is neutral; otherwise indicator points
and factor strings accumulate from the trailing-20 trend slopes of the
channels present and from the anomalies detected on the trailing 10 rows
of the feature frame. -/
def predict_failure_probability (st : ModelState) (sensor_data : Frame) :
    FailurePrediction :=
  if sensor_data.nrows = 0 ∨ sensor_data.nrows < 10 then
    { failure_probability := 0, confidence := 0,
      time_to_failure_hours := none, contributing_factors := [] }
  else
    let feature_data := create_features sensor_data
    let trends : List (String × ℚ) := feature_columnsL.filterMap (fun sensor =>
      (alookup sensor feature_data.cols).bind (fun xs =>
        let recent := xs.drop (xs.length - 20)
        if 1 < recent.length then some (sensor, lstsqSlope recent) else none))
    let tempStep : ℕ × List String :=
      match alookup "temperature" trends with
      | some sl => if 1 < sl then (2, ["Rising temperature trend"]) else (0, [])
      | none => (0, [])
    let vibStep : ℕ × List String :=
      match alookup "vibration" trends with
      | some sl => if 0.5 < sl then (2, ["Increasing vibration"]) else (0, [])
      | none => (0, [])
    let humStep : ℕ × List String :=
      match alookup "humidity" trends with
      | some sl => if 2 < |sl| then (1, ["Unstable humidity"]) else (0, [])
      | none => (0, [])
    let recent_anomalies := detect_anomalies st (feature_data.tailN 10)
    let anomStep : ℕ × List String :=
      if recent_anomalies.isEmpty then (0, [])
      else (recent_anomalies.length,
            [toString recent_anomalies.length ++ " recent anomalies detected"])
    let failure_indicators : ℕ := tempStep.1 + vibStep.1 + humStep.1 + anomStep.1
    let failure_probability : ℚ := min ((failure_indicators : ℚ) / 10) 1
    { failure_probability := failure_probability,
      confidence := if 100 < sensor_data.nrows then 0.8 else 0.6,
      time_to_failure_hours :=
        if 0.7 < failure_probability then some 24
        else if 0.5 < failure_probability then some 72
        else if 0.3 < failure_probability then some 168
        else none,
      contributing_factors := tempStep.2 ++ vibStep.2 ++ humStep.2 ++ anomStep.2 }

/- ===== src/predictive_analytics.py : Health Aggregator ===== -/

/-- The result of analyze_machine_health: in the no_data branch only the
status field is populated (the source returns a dict with status and
message only). -/
structure HealthResult where
  status : String
  health_status : Option String
  failure_prediction : Option FailurePrediction
  anomalies : List Anomaly
  threshold_violations : List Violation

/-- analyze_machine_health (src/predictive_analytics.py, lines 513-561):
constructs a fresh PredictiveAnalytics (whose threshold_rules is empty and
whose model fields are whatever the persisted store holds, passed here as
st), preprocesses, and on nonempty data aggregates anomalies, threshold
violations and the failure prediction into one prioritized status. -/
def analyze_machine_health (st : ModelState) (machine_id : ℤ)
    (sensor_readings : List Reading) : HealthResult :=
  let analytics : PA := PA.init
  let df := preprocess_sensor_data sensor_readings
  if df.nrows = 0 then
    { status := "no_data", health_status := none, failure_prediction := none,
      anomalies := [], threshold_violations := [] }
  else
    let anomalies := detect_anomalies st df
    let threshold_violations := check_thresholds analytics.threshold_rules df machine_id
    let failure_prediction := predict_failure_probability st df
    let health_status :=
      if 0.7 < failure_prediction.failure_probability then "critical"
      else if 0.5 < failure_prediction.failure_probability ∨
                !threshold_violations.isEmpty then "warning"
      else if !anomalies.isEmpty then "attention"
      else "healthy"
    { status := "success", health_status := some health_status,
      failure_prediction := some failure_prediction,
      anomalies := anomalies, threshold_violations := threshold_violations }

/- ===== src/analytics.py : threshold configuration route ===== -/

/-- set_machine_thresholds (src/analytics.py, lines 192-217): the handler
constructs a fresh PredictiveAnalytics, stores the posted rule set on that
instance, and returns its success payload; the instance holding the rules
is request local and not retained anywhere. -/
def set_machine_thresholds (machine_id : ℤ) (thresholds : RuleSet) : String :=
  let analytics : PA := PA.init
  let _ := set_threshold_rules analytics machine_id thresholds
  "Thresholds set"

/-- The observable composition claim C2 is about: a threshold-configuration
request followed by a machine-health analysis for the same machine, with
each handler constructing its own fresh engine as the source does. -/
def health_after_set_thresholds (machine_id : ℤ) (thresholds : RuleSet)
    (st : ModelState) (sensor_readings : List Reading) : HealthResult :=
  let _ := set_machine_thresholds machine_id thresholds
  analyze_machine_health st machine_id sensor_readings

/- ===== helper lemmas ===== -/

/-- The critical-bounds check produces nothing or the one fixed critical
alert record for this sensor. -/
theorem check_critical_cases (sensor : SensorRec) (value : ℚ) :
    check_critical_thresholds sensor value = none ∨
    check_critical_thresholds sensor value =
      some ⟨sensor.machine_id, sensor.id, "critical_threshold", "critical", "active"⟩ := by
  unfold check_critical_thresholds
  cases h : alookup sensor.type critical_thresholds with
  | none => exact Or.inl rfl
  | some b =>
      dsimp only
      by_cases hb : value < b.min ∨ b.max < value
      · exact Or.inr (by rw [if_pos hb])
      · exact Or.inl (by rw [if_neg hb])

/-- Association lookup distributes over list append, first hit winning. -/
theorem alookup_append {α : Type} (k : String) (l1 l2 : List (String × α)) :
    alookup k (l1 ++ l2) = (alookup k l1).or (alookup k l2) := by
  unfold alookup
  rw [List.find?_append]
  cases List.find? (fun p => p.1 == k) l1 <;> simp

/-- Original columns keep their bindings through create_features. -/
theorem alookup_create_features (f : Frame) (s : String) (xs : List ℚ)
    (hf : alookup s f.cols = some xs) :
    alookup s (create_features f).cols = some xs := by
  unfold create_features
  by_cases h0 : f.nrows = 0
  · rw [if_pos h0]
    exact hf
  · rw [if_neg h0]
    dsimp only
    rw [alookup_append, hf]
    rfl

/- ===== claims ===== -/

/-- C7: the critical-bounds check is independent of the configured bounds,
produces exactly one critical-severity violation iff the value breaches
the fixed per-type table (temperature [-40,120], humidity [5,95], tension
[-100,800], vibration [-10,80]), and never fires for non-canonical sensor
types. -/
theorem C7_critical_bounds (sensor : SensorRec) (value : ℚ) :
    (critical_thresholds =
      [("temperature", ⟨-40, 120⟩), ("humidity", ⟨5, 95⟩),
       ("tension", ⟨-100, 800⟩), ("vibration", ⟨-10, 80⟩)])
  ∧ (∀ mn mx : ℚ,
      check_critical_thresholds ⟨sensor.id, sensor.machine_id, sensor.type, mn, mx⟩ value
        = check_critical_thresholds sensor value)
  ∧ ((check_sensor_thresholds sensor value).filter
        (fun a => a.type == "critical_threshold")
      = (check_critical_thresholds sensor value).toList)
  ∧ (∀ a, check_critical_thresholds sensor value = some a →
      a.severity = "critical" ∧ a.type = "critical_threshold")
  ∧ ((check_critical_thresholds sensor value).isSome ↔
      (∃ b, alookup sensor.type critical_thresholds = some b ∧
        (value < b.min ∨ b.max < value)))
  ∧ (sensor.type ∉ canonical_types → check_critical_thresholds sensor value = none) := by
  refine ⟨rfl, fun mn mx => rfl, ?_, ?_, ?_, ?_⟩
  · rcases check_critical_cases sensor value with h | h <;>
      · unfold check_sensor_thresholds
        rw [h]
        split_ifs <;> simp
  · intro a ha
    rcases check_critical_cases sensor value with h | h
    · rw [h] at ha; cases ha
    · rw [h] at ha
      cases ha
      exact ⟨rfl, rfl⟩
  · unfold check_critical_thresholds
    cases h : alookup sensor.type critical_thresholds with
    | none => simp
    | some b =>
        dsimp only
        by_cases hb : value < b.min ∨ b.max < value
        · rw [if_pos hb]
          simp only [Option.isSome_some, true_iff]
          exact ⟨b, rfl, hb⟩
        · rw [if_neg hb]
          simp only [Option.isSome_none, Bool.false_eq_true, false_iff, not_exists]
          rintro b2 ⟨hbe, hout⟩
          obtain rfl : b = b2 := by injection hbe
          exact hb hout
  · intro hmem
    have hnone : alookup sensor.type critical_thresholds = none := by
      simp only [alookup, Option.map_eq_none', List.find?_eq_none]
      intro x hx
      simp only [canonical_types, List.mem_cons, List.mem_singleton,
        not_or, List.not_mem_nil] at hmem
      simp only [critical_thresholds, List.mem_cons, List.not_mem_nil, or_false] at hx
      rcases hx with rfl | rfl | rfl | rfl <;>
        simp only [beq_iff_eq] <;> intro he <;> simp_all
    unfold check_critical_thresholds
    rw [hnone]

/-- C7 witness: a temperature reading of 130 breaches the fixed table and
the critical check fires; an unknown sensor type never fires. -/
theorem C7_witness :
    (check_critical_thresholds ⟨2, 3, "temperature", -10, 80⟩ 130).isSome = true
  ∧ check_critical_thresholds ⟨2, 3, "pump_speed", -10, 80⟩ 130 = none := by
  constructor
  · exact ((C7_critical_bounds ⟨2, 3, "temperature", -10, 80⟩ 130).2.2.2.2.1).mpr
      ⟨⟨-40, 120⟩, by simp [alookup, critical_thresholds, List.find?],
        Or.inr (by norm_num)⟩
  · exact (C7_critical_bounds ⟨2, 3, "pump_speed", -10, 80⟩ 130).2.2.2.2.2 (by decide)

/-- C1 counterexample: with configured bounds [10, 100] and value 0, the
overshoot below min is 10, above 20 percent of the bound magnitude, so the
claim assigns severity high, but the ingestion threshold evaluator
produces a single medium configured-bounds violation. -/
theorem C1_counterexample :
    ((check_sensor_thresholds ⟨1, 1, "temperature", 10, 100⟩ 0).map
        (fun a => (a.type, a.severity)) = [("threshold_violation", "medium")])
  ∧ claim_configured_severity 10 100 0 = "high" := by
  constructor
  · unfold check_sensor_thresholds check_critical_thresholds
    norm_num [alookup, critical_thresholds, List.find?]
  · unfold claim_configured_severity
    rw [if_pos]
    right
    rw [abs_of_nonneg (by norm_num : (0:ℚ) ≤ 10)]
    norm_num

/-- C1 corrected: for every configured rule with min at most max and every
value outside [min, max], the ingestion evaluator produces exactly one
configured-bounds violation; above max its severity is high iff the value
exceeds max times 1.2 and medium otherwise, while below min its severity
is always medium. -/
theorem C1_amended_configured_bounds (sensor : SensorRec) (value : ℚ)
    (hb : sensor.min_value ≤ sensor.max_value)
    (hout : value < sensor.min_value ∨ sensor.max_value < value) :
    ((check_sensor_thresholds sensor value).filter
        (fun a => a.type == "threshold_violation")).map (fun a => a.severity)
      = [if sensor.max_value < value then
           (if sensor.max_value * 1.2 < value then "high" else "medium")
         else "medium"] := by
  rcases check_critical_cases sensor value with h | h <;>
    · unfold check_sensor_thresholds
      rw [h]
      rcases hout with hlo | hhi
      · have hnot : ¬ sensor.max_value < value :=
          not_lt.mpr (le_of_lt (lt_of_lt_of_le hlo hb))
        simp [hlo, hnot]
      · have hnot : ¬ value < sensor.min_value :=
          not_lt.mpr (le_of_lt (lt_of_le_of_lt hb hhi))
        simp [hhi, hnot]

/-- C1 witness: bounds [10, 100] and value 130 give one high
configured-bounds violation. -/
theorem C1_witness :
    ((check_sensor_thresholds ⟨1, 1, "temperature", 10, 100⟩ 130).filter
        (fun a => a.type == "threshold_violation")).map (fun a => a.severity)
      = ["high"] := by
  have h := C1_amended_configured_bounds ⟨1, 1, "temperature", 10, 100⟩ 130
    (by norm_num) (Or.inr (by norm_num))
  rw [h, if_pos (by norm_num : (100:ℚ) < 130),
    if_pos (by norm_num : (100:ℚ) * 1.2 < 130)]

/-- C8: the type normalizer returns the first canonical sensor type in the
fixed priority order whose keyword set matches the lowercased and trimmed
label by substring, else the processed label unchanged, and it is the
identity on the four canonical types. -/
theorem C8_type_normalizer (label : String) :
    normalize_sensor_type label = spec_normalize label
  ∧ canonical_types.all (fun c => normalize_sensor_type c == c) = true := by
  constructor
  · simp only [normalize_sensor_type, spec_normalize, keyword_table]
    by_cases h1 : temperature_terms.any (fun t => containsSub (stripStr (lowerStr label)) t) <;>
      by_cases h2 : humidity_terms.any (fun t => containsSub (stripStr (lowerStr label)) t) <;>
        by_cases h3 : tension_terms.any (fun t => containsSub (stripStr (lowerStr label)) t) <;>
          by_cases h4 : vibration_terms.any (fun t => containsSub (stripStr (lowerStr label)) t) <;>
            simp [h1, h2, h3, h4, List.find?]
  · decide

/-- C9: below 10 timesteps the failure predictor returns the neutral
record, and anomaly detection returns an empty list when the model or
scaler is absent or the input frame is empty. -/
theorem C9_neutral_results (st : ModelState) (f : Frame) :
    (f.nrows < 10 → predict_failure_probability st f =
      { failure_probability := 0, confidence := 0,
        time_to_failure_hours := none, contributing_factors := [] })
  ∧ (st.anomaly_model = none ∨ st.scaler = none → detect_anomalies st f = [])
  ∧ (f.nrows = 0 → detect_anomalies st f = []) := by
  refine ⟨fun h => ?_, fun h => ?_, fun h => ?_⟩
  · unfold predict_failure_probability
    rw [if_pos (Or.inr h)]
  · obtain ⟨m, sc⟩ := st
    cases m with
    | none => cases sc <;> rfl
    | some mf =>
        cases sc with
        | none => rfl
        | some scf =>
            exfalso
            rcases h with h | h <;> simp at h
  · obtain ⟨m, sc⟩ := st
    cases m with
    | none => rfl
    | some mf =>
        cases sc with
        | none => rfl
        | some scf =>
            unfold detect_anomalies
            dsimp only
            rw [if_pos h]

/-- C9 witness: the empty frame with no trained model yields the neutral
prediction and no anomalies. -/
theorem C9_witness :
    predict_failure_probability ⟨none, none⟩ ⟨0, []⟩ =
      { failure_probability := 0, confidence := 0,
        time_to_failure_hours := none, contributing_factors := [] }
  ∧ detect_anomalies ⟨none, none⟩ ⟨0, []⟩ = [] :=
  ⟨(C9_neutral_results ⟨none, none⟩ ⟨0, []⟩).1 (by norm_num),
   (C9_neutral_results ⟨none, none⟩ ⟨0, []⟩).2.1 (Or.inl rfl)⟩

/-- C10: when a machine has a configured override rule set, the
configured-bounds check evaluates only the sensor types present in the
override; the built-in defaults are not merged in, so a sensor type absent
from the override never produces a violation for that machine, whatever
the frame holds. -/
theorem C10_override_replaces_defaults (rules : ThresholdRules) (machine_id : ℤ)
    (t : RuleSet) (f : Frame) (s : String)
    (hm : alookup machine_id rules = some t) (hs : alookup s t = none) :
    ∀ v ∈ check_thresholds rules f machine_id, v.sensor_type ≠ s := by
  intro v hv
  unfold check_thresholds at hv
  by_cases h0 : f.nrows = 0
  · rw [if_pos h0] at hv
    cases hv
  · rw [if_neg h0] at hv
    dsimp only at hv
    rw [hm] at hv
    simp only [Option.getD_some] at hv
    rw [List.mem_filterMap] at hv
    obtain ⟨p, hp, hpv⟩ := hv
    have hkey : p.1 ≠ s := by
      have hne := List.find?_eq_none.mp (Option.map_eq_none'.mp hs) p hp
      simpa [beq_iff_eq] using hne
    rcases halo : alookup p.1 f.lastRow with _ | value
    · rw [halo] at hpv
      cases hpv
    · rw [halo] at hpv
      dsimp only at hpv
      by_cases hout : value < p.2.min ∨ p.2.max < value
      · rw [if_pos hout] at hpv
        injection hpv with hv2
        subst hv2
        exact hkey
      · rw [if_neg hout] at hpv
        cases hpv

/-- C10 witness: with override {temperature: [0, 10]} for machine 1 and a
latest temperature of 50, the single produced violation concerns
temperature, not the absent vibration rule. -/
theorem C10_witness :
    (⟨"temperature", 50, 0, 10, "high"⟩ : Violation).sensor_type ≠ "vibration" := by
  refine C10_override_replaces_defaults [(1, [("temperature", ⟨0, 10⟩)])] 1
    [("temperature", ⟨0, 10⟩)] ⟨1, [("temperature", [50]), ("vibration", [1000])]⟩
    "vibration" ?_ ?_ _ ?_
  · simp [alookup, List.find?]
  · simp [alookup, List.find?]
  · have hc : check_thresholds [(1, [("temperature", (⟨0, 10⟩ : Bounds))])]
        ⟨1, [("temperature", [50]), ("vibration", [1000])]⟩ 1
        = [⟨"temperature", 50, 0, 10, "high"⟩] := by
      unfold check_thresholds
      norm_num [alookup, List.find?, Frame.lastRow, List.filterMap]
    rw [hc]
    exact List.mem_singleton.mpr rfl

/-- C6: the health aggregator returns the distinct no_data verdict with no
further computation whenever the preprocessed frame is empty, and
otherwise combines the computed prediction, violations and anomalies with
the priority critical, then warning, then attention, then healthy. -/
theorem C6_health_aggregator (st : ModelState) (machine_id : ℤ)
    (readings : List Reading) :
    ((preprocess_sensor_data readings).nrows = 0 →
       analyze_machine_health st machine_id readings =
         { status := "no_data", health_status := none, failure_prediction := none,
           anomalies := [], threshold_violations := [] })
  ∧ ((preprocess_sensor_data readings).nrows ≠ 0 →
       (analyze_machine_health st machine_id readings).status = "success"
     ∧ (analyze_machine_health st machine_id readings).failure_prediction =
         some (predict_failure_probability st (preprocess_sensor_data readings))
     ∧ (analyze_machine_health st machine_id readings).anomalies =
         detect_anomalies st (preprocess_sensor_data readings)
     ∧ (analyze_machine_health st machine_id readings).threshold_violations =
         check_thresholds [] (preprocess_sensor_data readings) machine_id
     ∧ (analyze_machine_health st machine_id readings).health_status = some (
         if 0.7 < (predict_failure_probability st
             (preprocess_sensor_data readings)).failure_probability then "critical"
         else if 0.5 < (predict_failure_probability st
                  (preprocess_sensor_data readings)).failure_probability
                 ∨ check_thresholds [] (preprocess_sensor_data readings) machine_id ≠ []
         then "warning"
         else if detect_anomalies st (preprocess_sensor_data readings) ≠ []
         then "attention"
         else "healthy")) := by
  constructor
  · intro h
    unfold analyze_machine_health
    dsimp only
    rw [if_pos h]
  · intro h
    unfold analyze_machine_health
    dsimp only
    rw [if_neg h]
    refine ⟨rfl, rfl, rfl, rfl, ?_⟩
    simp only [Option.some_inj]
    simp [PA.init, List.isEmpty_iff]

/-- C6 witness: an empty reading list yields the no_data verdict. -/
theorem C6_witness :
    analyze_machine_health ⟨none, none⟩ 1 [] =
      { status := "no_data", health_status := none, failure_prediction := none,
        anomalies := [], threshold_violations := [] } :=
  (C6_health_aggregator ⟨none, none⟩ 1 []).1 rfl

/-- Unrolling the affected-sensor accumulator: on a duplicate-free sensor
list disjoint from the accumulator it appends exactly the sensors with a
matching extreme feature column, in order. -/
theorem affectedAux_filter (data_row : List (String × ℚ)) (feature_cols : List String) :
    ∀ (l acc : List String), (∀ s ∈ l, s ∉ acc) → l.Nodup →
      affectedAux data_row feature_cols acc l
        = acc ++ l.filter (fun sensor =>
            (feature_cols.filter (fun c => containsSub c sensor)).any
              (fun feature =>
                match alookup feature data_row with
                | some value => decide (2 < |value|)
                | none => false)) := by
  intro l
  induction l with
  | nil =>
      intro acc _ _
      simp [affectedAux]
  | cons sensor rest ih =>
      intro acc hacc hnd
      have hnc : acc.contains sensor = false := by
        rw [Bool.eq_false_iff]
        intro hc
        exact hacc sensor (List.mem_cons_self sensor rest) (List.elem_iff.mp hc)
      rw [List.nodup_cons] at hnd
      unfold affectedAux
      dsimp only
      rw [List.filter_cons]
      by_cases hh : (feature_cols.filter (fun c => containsSub c sensor)).any
          (fun feature =>
            match alookup feature data_row with
            | some value => decide (2 < |value|)
            | none => false)
      · rw [if_pos (by rw [hh, hnc]; rfl), if_pos hh,
          ih (acc ++ [sensor]) ?_ hnd.2]
        · simp
        · intro s hs hmem
          rcases List.mem_append.mp hmem with hmem | hmem
          · exact hacc s (List.mem_cons_of_mem sensor hs) hmem
          · exact hnd.1 (List.mem_singleton.mp hmem ▸ hs)
      · rw [if_neg ?_, if_neg hh, ih acc (fun s hs => hacc s (List.mem_cons_of_mem sensor hs)) hnd.2]
        rw [Bool.not_eq_true] at hh
        rw [hh]
        simp

/-- C3 corrected: for a flagged row, the reported affected channels are
exactly the canonical channels for which some selected feature column
whose name contains the channel name (the raw channel value, rolling
statistics, rate of change or z-score) is present in the row with
absolute value above 2. -/
theorem C3_amended_affected (data_row : List (String × ℚ)) (feature_cols : List String) :
    identify_affected_sensors data_row feature_cols
      = feature_columnsL.filter (fun sensor =>
          feature_cols.any (fun c =>
            containsSub c sensor &&
            match alookup c data_row with
            | some value => decide (2 < |value|)
            | none => false)) := by
  unfold identify_affected_sensors
  rw [affectedAux_filter data_row feature_cols feature_columnsL []
    (fun s _ hmem => (List.not_mem_nil s) hmem) (by decide)]
  simp only [List.any_filter, List.nil_append]

/-- C3 counterexample: in a row whose temperature value is 25 but whose
temperature z-score is 0, the code reports temperature as affected even
though no z-score exceeds 2 in absolute value, refuting the claim that
affected channels are exactly those with absolute z-score above 2. -/
theorem C3_counterexample :
    identify_affected_sensors [("temperature", 25), ("temperature_zscore", 0)]
        ["temperature", "temperature_zscore"] = ["temperature"]
  ∧ claim_affected_channels [("temperature", 25), ("temperature_zscore", 0)]
        ["temperature", "temperature_zscore"] = [] := by
  constructor
  · decide
  · decide

/-- C3 witness: a row whose temperature z-score is 3 reports temperature
as affected, matching the amended characterization. -/
theorem C3_witness :
    identify_affected_sensors [("temperature_zscore", 3)] ["temperature_zscore"]
      = ["temperature"] := by
  rw [C3_amended_affected [("temperature_zscore", 3)] ["temperature_zscore"]]
  decide

/-- C2 (code-bug evidence): the threshold-configuration route stores the
rule set {temperature: [0, 10]} for machine 1 on a request-local engine,
so the following health analysis, whose latest temperature is 50, still
reports no configured-bounds violation; a rule store that retained the
write, as the claim requires, would flag that same reading. -/
theorem C2_threshold_write_lost :
    (health_after_set_thresholds 1 [("temperature", ⟨0, 10⟩)] ⟨none, none⟩
        [⟨"temperature", 50, 0⟩]).threshold_violations = []
  ∧ check_thresholds
      (set_threshold_rules PA.init 1 [("temperature", ⟨0, 10⟩)]).threshold_rules
      (preprocess_sensor_data [⟨"temperature", 50, 0⟩]) 1 ≠ [] := by
  have hdf : preprocess_sensor_data [⟨"temperature", 50, 0⟩]
      = ⟨1, [("temperature", [50])]⟩ := by
    unfold preprocess_sensor_data
    norm_num [dedupKeep, sortInts, insertSorted, cellMean, ffillAux, bfill, listMean]
  constructor
  · unfold health_after_set_thresholds analyze_machine_health
    rw [hdf]
    simp +decide [PA.init, check_thresholds, Frame.lastRow, alookup, List.find?,
      default_thresholds, List.filterMap]
  · rw [hdf]
    unfold check_thresholds
    simp +decide [set_threshold_rules, PA.init, Frame.lastRow, alookup, List.find?,
      List.filterMap]

/-- C5: with at least 10 timesteps and the three scored channels present,
the failure prediction is exactly: probability min(points / 10, 1) with +2
for a trailing-20 temperature slope above 1, +2 for a vibration slope
above 0.5, +1 for an absolute humidity slope above 2, plus the count of
anomalies detected on the trailing 10 feature rows, each with its named
factor; confidence 0.8 above 100 timesteps else 0.6; and the 24h / 72h /
168h banding of time to failure at the 0.7 / 0.5 / 0.3 cuts. -/
theorem C5_failure_predictor (st : ModelState) (f : Frame)
    (ts vs hus : List ℚ)
    (hT : alookup "temperature" f.cols = some ts)
    (hH : alookup "humidity" f.cols = some hus)
    (hV : alookup "vibration" f.cols = some vs)
    (hlT : ts.length = f.nrows) (hlH : hus.length = f.nrows)
    (hlV : vs.length = f.nrows) (h10 : 10 ≤ f.nrows) :
    predict_failure_probability st f =
      (let sT := lstsqSlope (ts.drop (ts.length - 20))
       let sV := lstsqSlope (vs.drop (vs.length - 20))
       let sH := lstsqSlope (hus.drop (hus.length - 20))
       let cnt := (detect_anomalies st ((create_features f).tailN 10)).length
       let ind : ℕ := (if 1 < sT then 2 else 0) + (if 0.5 < sV then 2 else 0)
                      + (if 2 < |sH| then 1 else 0) + cnt
       let p : ℚ := min ((ind : ℚ) / 10) 1
       { failure_probability := p,
         confidence := if 100 < f.nrows then 0.8 else 0.6,
         time_to_failure_hours :=
           if 0.7 < p then some 24 else if 0.5 < p then some 72
           else if 0.3 < p then some 168 else none,
         contributing_factors :=
           (if 1 < sT then ["Rising temperature trend"] else [])
           ++ (if 0.5 < sV then ["Increasing vibration"] else [])
           ++ (if 2 < |sH| then ["Unstable humidity"] else [])
           ++ (if cnt = 0 then []
               else [toString cnt ++ " recent anomalies detected"]) }) := by
  have hfT := alookup_create_features f "temperature" ts hT
  have hfH := alookup_create_features f "humidity" hus hH
  have hfV := alookup_create_features f "vibration" vs hV
  have hlen : ∀ xs : List ℚ, xs.length = f.nrows →
      1 < (xs.drop (xs.length - 20)).length := by
    intro xs hxl
    rw [List.length_drop]
    omega
  have hlookT : ∀ u v w : ℚ, alookup "temperature"
      [("temperature", u), ("humidity", v), ("vibration", w)] = some u := by
    intro u v w
    simp +decide [alookup, List.find?]
  have hlookH : ∀ u v w : ℚ, alookup "humidity"
      [("temperature", u), ("humidity", v), ("vibration", w)] = some v := by
    intro u v w
    simp +decide [alookup, List.find?]
  have hlookV : ∀ u v w : ℚ, alookup "vibration"
      [("temperature", u), ("humidity", v), ("vibration", w)] = some w := by
    intro u v w
    simp +decide [alookup, List.find?]
  have hlookT4 : ∀ u v x w : ℚ, alookup "temperature"
      [("temperature", u), ("humidity", v), ("tension", x), ("vibration", w)] = some u := by
    intro u v x w
    simp +decide [alookup, List.find?]
  have hlookH4 : ∀ u v x w : ℚ, alookup "humidity"
      [("temperature", u), ("humidity", v), ("tension", x), ("vibration", w)] = some v := by
    intro u v x w
    simp +decide [alookup, List.find?]
  have hlookV4 : ∀ u v x w : ℚ, alookup "vibration"
      [("temperature", u), ("humidity", v), ("tension", x), ("vibration", w)] = some w := by
    intro u v x w
    simp +decide [alookup, List.find?]
  unfold predict_failure_probability
  rw [if_neg (by omega)]
  rcases hTe : alookup "tension" (create_features f).cols with _ | xs
  · simp only [feature_columnsL, List.filterMap_cons, List.filterMap_nil,
      hfT, hfH, hfV, hTe, Option.some_bind, Option.none_bind,
      hlen ts hlT, hlen hus hlH, hlen vs hlV, if_true,
      hlookT, hlookH, hlookV]
    rcases hdet : detect_anomalies st ((create_features f).tailN 10) with _ | ⟨a, l⟩ <;>
      simp [apply_ite Prod.fst, apply_ite Prod.snd]
  · simp only [feature_columnsL, List.filterMap_cons, List.filterMap_nil,
      hfT, hfH, hfV, hTe, Option.some_bind, Option.none_bind,
      hlen ts hlT, hlen hus hlH, hlen vs hlV, if_true]
    by_cases hxl : 1 < (xs.drop (xs.length - 20)).length
    · rw [if_pos hxl]
      simp only [hlookT4, hlookH4, hlookV4]
      rcases hdet : detect_anomalies st ((create_features f).tailN 10) with _ | ⟨a, l⟩ <;>
        simp [apply_ite Prod.fst, apply_ite Prod.snd]
    · rw [if_neg hxl]
      simp only [hlookT, hlookH, hlookV]
      rcases hdet : detect_anomalies st ((create_features f).tailN 10) with _ | ⟨a, l⟩ <;>
        simp [apply_ite Prod.fst, apply_ite Prod.snd]

/-- C5 witness: ten constant readings on each scored channel with no
trained model give probability 0, confidence 0.6, no time to failure and
an empty factor list. -/
theorem C5_witness :
    predict_failure_probability ⟨none, none⟩
      ⟨10, [("temperature", [0, 0, 0, 0, 0, 0, 0, 0, 0, 0]),
            ("humidity", [0, 0, 0, 0, 0, 0, 0, 0, 0, 0]),
            ("vibration", [0, 0, 0, 0, 0, 0, 0, 0, 0, 0])]⟩ =
      { failure_probability := 0, confidence := 0.6,
        time_to_failure_hours := none, contributing_factors := [] } := by
  have hslope : lstsqSlope [(0:ℚ), 0, 0, 0, 0, 0, 0, 0, 0, 0] = 0 := by
    unfold lstsqSlope
    rw [show List.range ([(0:ℚ), 0, 0, 0, 0, 0, 0, 0, 0, 0]).length
        = [0, 1, 2, 3, 4, 5, 6, 7, 8, 9] from rfl]
    norm_num [List.zip_cons_cons, List.sum_cons]
  have hdet : ∀ fr : Frame, detect_anomalies ⟨none, none⟩ fr = [] := fun _ => rfl
  rw [C5_failure_predictor ⟨none, none⟩ _
      [0, 0, 0, 0, 0, 0, 0, 0, 0, 0] [0, 0, 0, 0, 0, 0, 0, 0, 0, 0]
      [0, 0, 0, 0, 0, 0, 0, 0, 0, 0]
      (by simp +decide [alookup, List.find?]) (by simp +decide [alookup, List.find?])
      (by simp +decide [alookup, List.find?]) rfl rfl rfl (by norm_num)]
  simp [hdet, hslope]
  norm_num

/-- The exact rational square root is never negative. -/
theorem ratSqrt_nonneg (v : ℚ) : 0 ≤ ratSqrt v := by
  unfold ratSqrt
  dsimp only
  split
  · positivity
  · exact le_refl 0

/-- The sample variance of the concrete channel [0, 0, 0, 6]. -/
theorem sampleVar_witness_input : sampleVar [(0:ℚ), 0, 0, 6] = 9 := by
  norm_num [sampleVar, listMean]

/-- ratSqrt recovers the exact root of 9. -/
theorem ratSqrt_nine : ratSqrt 9 = 3 := by
  unfold ratSqrt
  rw [show ((9:ℚ).num.toNat) = 9 from rfl, show ((9:ℚ).den) = 1 from rfl,
    show natSqrtL 9 = 3 from by decide, show natSqrtL 1 = 1 from by decide]
  norm_num

/-- The z-score column of the concrete channel [0, 0, 0, 6], computed with
the ddof-1 standard deviation 3. -/
theorem zscore_col_witness_input :
    zscore_col [(0:ℚ), 0, 0, 6] = [-(1/2), -(1/2), -(1/2), 3/2] := by
  unfold zscore_col sampleStd
  rw [if_neg (by norm_num), sampleVar_witness_input, ratSqrt_nine]
  dsimp only
  rw [if_pos (by norm_num : (0:ℚ) < 3)]
  norm_num [listMean]

/-- C4 counterexample: on the channel [0, 0, 0, 6] the code z-score of the
first row is -1/2 (sample std 3, ddof 1), but the population variance is
27/4, and (-1/2)^2 * 27/4 = 27/16 differs from the squared deviation 9/4,
so the z-score column is not the population z-score the claim states. -/
theorem C4_counterexample :
    ¬ isPopulationZscore [0, 0, 0, 6] (zscore_col [0, 0, 0, 6]) := by
  intro h
  have h0 := h.2 0 (by norm_num)
  rw [zscore_col_witness_input] at h0
  norm_num [List.getD_cons_zero, popVar, listMean] at h0

/-- C4 corrected: for a nonempty frame and a canonical channel present,
create_features emits the three derived columns; the z-score column uses
the sample standard deviation (ddof 1): z times std equals the deviation
from the whole-channel mean whenever std exceeds 0, and the column is all
zeros when the std is 0 or undefined; rolling-std cells are NaN exactly
where the window has fewer than 2 samples (row 0) and are filled with 0;
and the first rate-of-change cell is likewise filled with 0. -/
theorem C4_amended_feature_builder (f : Frame) (c : String) (xs : List ℚ)
    (hc : c ∈ feature_columnsL)
    (hx : alookup c f.cols = some xs)
    (hn : f.nrows ≠ 0)
    (hsq : ratSqrt (sampleVar xs) * ratSqrt (sampleVar xs) = sampleVar xs) :
    ((c ++ "_zscore", zscore_col xs) ∈ (create_features f).cols
  ∧ (c ++ "_rolling_std", fill0 (rolling_std_raw xs)) ∈ (create_features f).cols
  ∧ (c ++ "_rate_of_change", fill0 (diff_raw xs)) ∈ (create_features f).cols)
  ∧ (2 ≤ xs.length → 0 < sampleVar xs →
      ∀ i, i < xs.length →
        (zscore_col xs).getD i 0 * ratSqrt (sampleVar xs) = xs.getD i 0 - listMean xs)
  ∧ (xs.length < 2 ∨ sampleVar xs = 0 → zscore_col xs = xs.map (fun _ => 0))
  ∧ (∀ i, i < xs.length → ((rolling_std_raw xs).getD i (some 0) = none ↔ i = 0))
  ∧ (xs ≠ [] → (fill0 (rolling_std_raw xs)).getD 0 1 = 0)
  ∧ (xs ≠ [] → (fill0 (diff_raw xs)).getD 0 1 = 0) := by
  have hchunk : featureChunk f c =
      [(c ++ "_rolling_mean", rolling_mean_col xs),
       (c ++ "_rolling_std", fill0 (rolling_std_raw xs)),
       (c ++ "_rate_of_change", fill0 (diff_raw xs)),
       (c ++ "_zscore", zscore_col xs)] := by
    unfold featureChunk
    rw [hx]
  have hw : ∀ i, i < xs.length → (rollingWindow xs i).length = min (i + 1) 10 := by
    intro i hi
    unfold rollingWindow
    rw [List.length_drop, List.length_take]
    omega
  refine ⟨?_, ?_, ?_, ?_, ?_, ?_⟩
  · have hmem : ∀ entry ∈ featureChunk f c, entry ∈ (create_features f).cols := by
      intro entry he
      unfold create_features
      rw [if_neg hn]
      dsimp only
      refine List.mem_append_right _ ?_
      rw [List.mem_flatten]
      exact ⟨featureChunk f c, List.mem_map_of_mem _ hc, he⟩
    refine ⟨hmem _ ?_, hmem _ ?_, hmem _ ?_⟩ <;> rw [hchunk] <;> simp
  · intro h2 hv i hi
    have hnn : 0 ≤ ratSqrt (sampleVar xs) := ratSqrt_nonneg _
    have hne : ratSqrt (sampleVar xs) ≠ 0 := by
      intro h0
      rw [h0, mul_zero] at hsq
      exact absurd hsq.symm (ne_of_gt hv)
    have hpos : 0 < ratSqrt (sampleVar xs) := lt_of_le_of_ne hnn (Ne.symm hne)
    unfold zscore_col sampleStd
    rw [if_neg (by omega)]
    dsimp only
    rw [if_pos hpos]
    rw [List.getD_eq_getElem?_getD, List.getElem?_map, List.getElem?_eq_getElem hi]
    rw [List.getD_eq_getElem?_getD, List.getElem?_eq_getElem hi]
    simp only [Option.map_some']
    rw [Option.getD_some, Option.getD_some]
    exact div_mul_cancel₀ _ hne
  · intro h
    unfold zscore_col sampleStd
    rcases h with h | h
    · rw [if_pos h]
    · by_cases hl : xs.length < 2
      · rw [if_pos hl]
      · rw [if_neg hl]
        dsimp only
        rw [if_neg ?_]
        have hz0 : ratSqrt (sampleVar xs) = 0 := by
          have h2 := hsq
          rw [h] at h2
          rw [h]
          exact mul_self_eq_zero.mp h2
        rw [hz0]
        exact lt_irrefl 0
  · intro i hi
    unfold rolling_std_raw
    rw [List.getD_eq_getElem?_getD, List.getElem?_map, List.getElem?_range hi]
    simp only [Option.map_some']
    rw [Option.getD_some]
    unfold sampleStd
    by_cases hc2 : (rollingWindow xs i).length < 2
    · rw [if_pos hc2]
      rw [hw i hi] at hc2
      exact iff_of_true rfl (by omega)
    · rw [if_neg hc2]
      rw [hw i hi] at hc2
      exact iff_of_false (by simp) (by omega)
  · intro hne
    have h0 : 0 < xs.length := List.length_pos.mpr hne
    unfold fill0 rolling_std_raw
    rw [List.getD_eq_getElem?_getD, List.getElem?_map, List.getElem?_map,
      List.getElem?_range h0]
    simp only [Option.map_some']
    rw [Option.getD_some]
    have hw0 : (rollingWindow xs 0).length = 1 := by
      rw [hw 0 h0]
      omega
    unfold sampleStd
    rw [if_pos (by omega)]
    rfl
  · intro hne
    rcases xs with _ | ⟨x, rest⟩
    · cases hne rfl
    · rfl

/-- C4 witness: on the frame holding the channel [0, 0, 0, 6], the emitted
z-score column is present and its last entry 3/2 times the sample std 3
recovers the deviation 6 - 3/2. -/
theorem C4_witness :
    (("temperature" ++ "_zscore", zscore_col [0, 0, 0, 6]) ∈
      (create_features ⟨4, [("temperature", [0, 0, 0, 6])]⟩).cols)
  ∧ (zscore_col [0, 0, 0, 6]).getD 3 0 * ratSqrt (sampleVar [0, 0, 0, 6])
      = [(0:ℚ), 0, 0, 6].getD 3 0 - listMean [0, 0, 0, 6] := by
  have h := C4_amended_feature_builder ⟨4, [("temperature", [0, 0, 0, 6])]⟩
    "temperature" [0, 0, 0, 6] (by decide)
    (by simp +decide [alookup, List.find?]) (by decide)
    (by rw [sampleVar_witness_input, ratSqrt_nine]; norm_num)
  exact ⟨h.1.1, h.2.1 (by norm_num) (by rw [sampleVar_witness_input]; norm_num)
    3 (by norm_num)⟩

end MRP
